import Mathlib

/-!
# CPF form helper (`Assets/script.js`)

A shallow embedding of the CPF part of the script: the feedback routine
`exibirFeedbackCpf`, the validator `validarCpf` with its inner function
`calcularDigito`, and the `input` handler that masks the CPF field.

JavaScript strings are lists of characters, JavaScript numbers are `Option Int`
with `none` standing for `NaN` and every arithmetic result rounded as an IEEE
double, and an `<input>` element is a record of the properties the script reads
or writes.
-/

namespace CpfForm

/-! ## The DOM element -/

/-- The properties of an `<input>` element that the script touches: its `value`,
the message set by `setCustomValidity`, its `title`, `style.borderColor`, and
whether it holds the focus; and `focusable`, whether the element can take the
focus at all (it cannot while disabled, hidden or detached from the document). -/
structure HTMLInputElement where
  value : String
  customValidity : String
  title : String
  borderColor : String
  focused : Bool
  focusable : Bool
deriving DecidableEq

/-- The call `input.focus()`: a focusable element gets the focus, any other
element is left as it is. -/
def focus (input : HTMLInputElement) : HTMLInputElement :=
  { input with focused := if input.focusable then true else input.focused }

/-! ## JavaScript built-ins used by the script -/

/-- A JavaScript number as far as this script can produce one: an integer, or
`none` for `NaN`. -/
abbrev JSNumber := Option Int

/-- The number of binary digits of `n`; `fuel` bounds the recursion, and `n`
itself is always enough. -/
def bitLength : Nat → Nat → Nat
  | 0, _ => 0
  | fuel + 1, n => if n = 0 then 0 else bitLength fuel (n / 2) + 1

/-- The double nearest to the natural number `n`: `n` itself below `2^53`,
otherwise `n` rounded to 53 significant bits, ties going to the even
significand. A result of more than 1024 binary digits is past the largest
double and no finite number: `none`. -/
def roundNat (n : Nat) : Option Nat :=
  if n < 2 ^ 53 then some n
  else
    let e := bitLength n n - 53
    let q := n / 2 ^ e
    let r := n % 2 ^ e
    let half := 2 ^ (e - 1)
    let q1 := if r < half then q else if half < r then q + 1
      else if q % 2 = 0 then q else q + 1
    if bitLength (q1 * 2 ^ e) (q1 * 2 ^ e) ≤ 1024 then some (q1 * 2 ^ e) else none

/-- The double nearest to the integer `x`, as a JavaScript number. -/
def toDouble (x : Int) : JSNumber :=
  match roundNat x.natAbs with
  | some m => some (if x < 0 then -(m : Int) else (m : Int))
  | none => none

/-- The call `s.replace(/\D/g, '')`: every character other than `0`..`9` is dropped. -/
def replaceNonDigits (s : String) : List Char :=
  s.data.filter Char.isDigit

/-- The call `s.charAt(i)`: the one-character string at index `i`, or the empty
string when `i` is out of range. -/
def charAt (s : List Char) (i : Nat) : List Char :=
  (s.drop i).take 1

/-- The call `s.substring(start, end)`: both indices are clamped to the length
and swapped when out of order. -/
def substring (s : List Char) (start finish : Nat) : List Char :=
  let a := min start s.length
  let b := min finish s.length
  (s.take (max a b)).drop (min a b)

/-- The call `s.substring(start)`: from `start` (clamped) to the end. -/
def substringFrom (s : List Char) (start : Nat) : List Char :=
  s.drop (min start s.length)

/-- White space and line terminators skipped by `parseInt` before the number. -/
def isStrWhiteSpaceChar (c : Char) : Bool :=
  let n := c.toNat
  n = 0x09 || n = 0x0A || n = 0x0B || n = 0x0C || n = 0x0D || n = 0x20 || n = 0xA0
    || n = 0x1680 || (0x2000 ≤ n && n ≤ 0x200A) || n = 0x2028 || n = 0x2029
    || n = 0x202F || n = 0x205F || n = 0x3000 || n = 0xFEFF

/-- The value of `c` as a digit in the given radix, if it is one. -/
def radixDigit (radix : Nat) (c : Char) : Option Nat :=
  let n := c.toNat
  let v : Option Nat :=
    if 48 ≤ n ∧ n ≤ 57 then some (n - 48)
    else if 97 ≤ n ∧ n ≤ 122 then some (n - 87)
    else if 65 ≤ n ∧ n ≤ 90 then some (n - 55)
    else none
  v.filter (fun d => d < radix)

/-- The call `parseInt(s)` without a radix: leading white space is skipped, a
sign is read, `0x`/`0X` switches to base 16, and the longest run of digits is
converted to the nearest double; `NaN` when that run is empty. -/
def parseInt (s : List Char) : JSNumber :=
  let s1 := s.dropWhile isStrWhiteSpaceChar
  let signed : Int × List Char :=
    match s1 with
    | '-' :: r => (-1, r)
    | '+' :: r => (1, r)
    | _ => (1, s1)
  let based : Nat × List Char :=
    match signed.2 with
    | '0' :: 'x' :: r => (16, r)
    | '0' :: 'X' :: r => (16, r)
    | _ => (10, signed.2)
  let z := based.2.takeWhile (fun c => (radixDigit based.1 c).isSome)
  if z.isEmpty then none
  else toDouble (signed.1 *
    (z.foldl (fun acc c => acc * based.1 + (radixDigit based.1 c).getD 0) 0 : Nat))

/-- JavaScript `a + b` on numbers: the exact sum, rounded to a double. -/
def jsAdd (a b : JSNumber) : JSNumber :=
  match a, b with
  | some x, some y => toDouble (x + y)
  | _, _ => none

/-- JavaScript `a * b` on numbers: the exact product, rounded to a double. -/
def jsMul (a b : JSNumber) : JSNumber :=
  match a, b with
  | some x, some y => toDouble (x * y)
  | _, _ => none

/-- JavaScript `a % b` on numbers: the remainder has the sign of the dividend,
and is `NaN` for a zero divisor. -/
def jsMod (a b : JSNumber) : JSNumber :=
  match a, b with
  | some x, some y => if y = 0 then none else some (Int.tmod x y)
  | _, _ => none

/-- JavaScript `a == b` on numbers: `NaN` equals nothing. -/
def jsEq (a b : JSNumber) : Bool :=
  match a, b with
  | some x, some y => x == y
  | _, _ => false

/-- JavaScript `a !== b` on numbers: true as soon as either side is `NaN`. -/
def jsStrictNe (a b : JSNumber) : Bool :=
  match a, b with
  | some x, some y => x != y
  | _, _ => true

/-- The test `/^(\d)\1{10}$/.test(cpf)`: a digit followed by exactly ten copies
of itself, and nothing else. -/
def testRepeated (cpf : List Char) : Bool :=
  match cpf with
  | [] => false
  | c :: rest => c.isDigit && rest.length == 10 && rest.all (fun x => x == c)

/-! ## The script -/

/-- `exibirFeedbackCpf(input, mensagem, valido)`. -/
def exibirFeedbackCpf (input : HTMLInputElement) (mensagem : String) (valido : Bool) :
    HTMLInputElement :=
  if valido then
    { input with customValidity := "", title := mensagem, borderColor := "green" }
  else
    focus { input with customValidity := mensagem, title := mensagem, borderColor := "red" }

/-- The loop of `calcularDigito`: `soma` after
`for (let i = 0; i < limite; i++) soma += parseInt(cpf.charAt(i)) * (peso - i)`
with `peso = limite + 1`. -/
def calcularDigitoSoma (cpf : List Char) (limite : Nat) : JSNumber :=
  let peso : Int := limite + 1
  (List.range limite).foldl
    (fun soma i => jsAdd soma (jsMul (parseInt (charAt cpf i)) (some (peso - i))))
    (some 0)

/-- The end of `calcularDigito`: `resto = (soma * 10) % 11`, replaced by `0`
when `resto == 10 || resto == 11`. -/
def calcularDigitoResto (soma : JSNumber) : JSNumber :=
  let resto := jsMod (jsMul soma (some 10)) (some 11)
  if jsEq resto (some 10) || jsEq resto (some 11) then some 0 else resto

/-- The inner function `calcularDigito(limite)` of `validarCpf`, with the
captured `cpf` as an explicit argument. -/
def calcularDigito (cpf : List Char) (limite : Nat) : JSNumber :=
  calcularDigitoResto (calcularDigitoSoma cpf limite)

/-- `validarCpf(input)`: the element after the call. -/
def validarCpf (input : HTMLInputElement) : HTMLInputElement :=
  let cpf := replaceNonDigits input.value
  if cpf.length ≠ 11 then
    exibirFeedbackCpf input "O CPF deve conter 11 dígitos." false
  else if testRepeated cpf then
    exibirFeedbackCpf input "CPF com números repetidos é inválido." false
  else
    let primeiroDigitoCalculado := calcularDigito cpf 9
    let primeiroDigitoReal := parseInt (substring cpf 9 10)
    if jsStrictNe primeiroDigitoCalculado primeiroDigitoReal then
      exibirFeedbackCpf input "O CPF digitado é inválido (1º dígito incorreto)." false
    else
      let segundoDigitoCalculado := calcularDigito cpf 10
      let segundoDigitoReal := parseInt (substring cpf 10 11)
      if jsStrictNe segundoDigitoCalculado segundoDigitoReal then
        exibirFeedbackCpf input "O CPF digitado é inválido (2º dígito incorreto)." false
      else
        exibirFeedbackCpf input "CPF válido!" true

/-- The text the `input` listener of the CPF field computes from the current
value of the field. -/
def mascaraCpfTexto (v : String) : List Char :=
  let value := replaceNonDigits v
  let value := if value.length > 3 then
    substring value 0 3 ++ ['.'] ++ substringFrom value 3 else value
  let value := if value.length > 7 then
    substring value 0 7 ++ ['.'] ++ substringFrom value 7 else value
  let value := if value.length > 11 then
    substring value 0 11 ++ ['-'] ++ substring value 11 13 else value
  substring value 0 14

/-- The `input` listener of the CPF field: `e.target.value` is replaced by the
masked text. -/
def mascaraCpf (target : HTMLInputElement) : HTMLInputElement :=
  { target with value := String.mk (mascaraCpfTexto target.value) }

/-- An untouched field of the form, holding the given text: nothing set, not
focused, able to take the focus. -/
def campo (v : String) : HTMLInputElement :=
  { value := v, customValidity := "", title := "", borderColor := "", focused := false,
    focusable := true }

/-! ## The five outcomes -/

/-- The element as `validarCpf` leaves it on the wrong-length exit. -/
def wrongLength (input : HTMLInputElement) : HTMLInputElement :=
  exibirFeedbackCpf input "O CPF deve conter 11 dígitos." false

/-- The element as `validarCpf` leaves it on the repeated-digits exit. -/
def repeatedDigits (input : HTMLInputElement) : HTMLInputElement :=
  exibirFeedbackCpf input "CPF com números repetidos é inválido." false

/-- The element as `validarCpf` leaves it on the first-check-digit exit. -/
def firstMismatch (input : HTMLInputElement) : HTMLInputElement :=
  exibirFeedbackCpf input "O CPF digitado é inválido (1º dígito incorreto)." false

/-- The element as `validarCpf` leaves it on the second-check-digit exit. -/
def secondMismatch (input : HTMLInputElement) : HTMLInputElement :=
  exibirFeedbackCpf input "O CPF digitado é inválido (2º dígito incorreto)." false

/-- The element as `validarCpf` leaves it when every check passes. -/
def valid (input : HTMLInputElement) : HTMLInputElement :=
  exibirFeedbackCpf input "CPF válido!" true

/-! ## The rule as the specification words it -/

/-- The numeric value of the digit at position `i` of `d`. -/
def digito (d : List Char) (i : Nat) : Nat :=
  (d.getD i '0').toNat - 48

/-- The rule `f(x) = (x * 10) mod 11`, with a result of `10` replaced by `0`. -/
def specF (x : Nat) : Nat :=
  if (x * 10) % 11 = 10 then 0 else (x * 10) % 11

/-- The weighted sum over positions `0 .. n - 1`, position `i` weighing `n + 1 - i`. -/
def specSoma (d : List Char) (n : Nat) : Nat :=
  ((List.range n).map (fun i => digito d i * (n + 1 - i))).sum

/-- First check digit: weights `10 - i` over positions `0..8`. -/
def specC1 (d : List Char) : Nat :=
  specF ((List.range 9).map (fun i => digito d i * (10 - i))).sum

/-- Second check digit: weights `11 - i` over positions `0..9`. -/
def specC2 (d : List Char) : Nat :=
  specF ((List.range 10).map (fun i => digito d i * (11 - i))).sum

/-- All the characters of `d` are the same one. -/
def AllIdentical (d : List Char) : Prop :=
  ∀ x ∈ d, ∀ y ∈ d, x = y

/-- The masked form of a digit string: `.` after the 3rd and the 6th digit and
`-` after the 9th, each only when a further digit follows. -/
def specMascara (d : List Char) : List Char :=
  d.take 3
    ++ (if d.length > 3 then '.' :: (d.drop 3).take 3 else [])
    ++ (if d.length > 6 then '.' :: (d.drop 6).take 3 else [])
    ++ (if d.length > 9 then '-' :: d.drop 9 else [])

instance : DecidablePred AllIdentical := fun d => by
  unfold AllIdentical
  infer_instance

/-- The conventional CPF rule: `r = soma % 11`, digit `0` if `r < 2`, else `11 - r`. -/
def specConventional (soma : Nat) : Nat :=
  if soma % 11 < 2 then 0 else 11 - soma % 11

/-! ## Lemmas on the built-ins -/

theorem isDigit_toNat {c : Char} (h : c.isDigit = true) : 48 ≤ c.toNat ∧ c.toNat ≤ 57 := by
  simp only [Char.isDigit, Bool.and_eq_true, decide_eq_true_eq] at h
  obtain ⟨h1, h2⟩ := h
  rw [ge_iff_le, UInt32.le_def] at h1
  rw [UInt32.le_def] at h2
  exact ⟨h1, h2⟩

theorem isDigit_cases {c : Char} (h : c.isDigit = true) :
    c = '0' ∨ c = '1' ∨ c = '2' ∨ c = '3' ∨ c = '4' ∨ c = '5' ∨ c = '6' ∨ c = '7'
      ∨ c = '8' ∨ c = '9' := by
  obtain ⟨h1, h2⟩ := isDigit_toNat h
  have hc : c = Char.ofNat c.toNat := (Char.ofNat_toNat c).symm
  generalize c.toNat = n at h1 h2 hc
  subst hc
  interval_cases n <;> decide

theorem parseInt_digit {c : Char} (h : c.isDigit = true) :
    parseInt [c] = some ((c.toNat - 48 : Nat) : Int) := by
  rcases isDigit_cases h with rfl | rfl | rfl | rfl | rfl | rfl | rfl | rfl | rfl | rfl <;> rfl

theorem mem_replaceNonDigits {s : String} {c : Char} (h : c ∈ replaceNonDigits s) :
    c.isDigit = true := by
  unfold replaceNonDigits at h
  exact (List.mem_filter.mp h).2

theorem charAt_lt {s : List Char} {i : Nat} (h : i < s.length) : charAt s i = [s[i]] := by
  unfold charAt
  rw [List.drop_eq_getElem_cons h]
  rfl

theorem digito_lt {s : List Char} {i : Nat} (h : i < s.length) :
    digito s i = s[i].toNat - 48 := by
  unfold digito
  rw [List.getD_eq_getElem _ _ h]

/-! ## Lemmas on `calcularDigito` -/

theorem toDouble_nat {n : Nat} (h : n < 2 ^ 53) : toDouble (n : Int) = some (n : Int) := by
  have hneg : ¬ ((n : Int) < 0) := by omega
  have hr : roundNat n = some n := by
    unfold roundNat
    exact if_pos h
  have ha : (n : Int).natAbs = n := Int.natAbs_ofNat n
  unfold toDouble
  rw [ha, hr]
  simp only [if_neg hneg]

theorem jsMul_nat {a b : Nat} (h : a * b < 2 ^ 53) :
    jsMul (some (a : Int)) (some (b : Int)) = some ((a * b : Nat) : Int) := by
  have e : (a : Int) * (b : Int) = ((a * b : Nat) : Int) := by push_cast; rfl
  simp only [jsMul, e, toDouble_nat h]

theorem jsAdd_nat {a b : Nat} (h : a + b < 2 ^ 53) :
    jsAdd (some (a : Int)) (some (b : Int)) = some ((a + b : Nat) : Int) := by
  have e : (a : Int) + (b : Int) = ((a + b : Nat) : Int) := by push_cast; rfl
  simp only [jsAdd, e, toDouble_nat h]

theorem digit_le_nine {s : List Char} (hs : ∀ c ∈ s, c.isDigit = true) {i : Nat}
    (h : i < s.length) : s[i].toNat - 48 ≤ 9 := by
  have := isDigit_toNat (hs _ (List.getElem_mem h))
  omega

theorem soma_loop (cpf : List Char) (hs : ∀ c ∈ cpf, c.isDigit = true) (peso : Nat)
    (hpeso : peso ≤ 11) :
    ∀ n, n ≤ cpf.length → n ≤ peso →
      (List.range n).foldl
          (fun soma i => jsAdd soma (jsMul (parseInt (charAt cpf i)) (some ((peso : Int) - i))))
          (some 0)
        = some ((((List.range n).map (fun i => digito cpf i * (peso - i))).sum : Nat) : Int) ∧
      ((List.range n).map (fun i => digito cpf i * (peso - i))).sum ≤ 99 * n := by
  intro n
  induction n with
  | zero => intro _ _; exact ⟨rfl, Nat.le_refl _⟩
  | succ k ih =>
    intro hk hp
    have hlt : k < cpf.length := hk
    obtain ⟨ih1, ih2⟩ := ih (by omega) (by omega)
    have hd : cpf[k].toNat - 48 ≤ 9 := digit_le_nine hs hlt
    have hw : (cpf[k].toNat - 48) * (peso - k) ≤ 99 :=
      Nat.mul_le_mul hd (show peso - k ≤ 11 by omega)
    have hcast : ((peso : Int) - (k : Int)) = ((peso - k : Nat) : Int) :=
      (Nat.cast_sub (show k ≤ peso by omega)).symm
    rw [List.range_succ, List.foldl_append, ih1, List.map_append, List.sum_append]
    simp only [List.foldl_cons, List.foldl_nil, List.map_cons, List.map_nil, List.sum_cons,
      List.sum_nil, add_zero]
    rw [charAt_lt hlt, parseInt_digit (hs _ (List.getElem_mem hlt)), digito_lt hlt, hcast,
      jsMul_nat (by omega), jsAdd_nat (by omega)]
    exact ⟨rfl, by omega⟩

theorem calcularDigitoSoma_eq {cpf : List Char} (hs : ∀ c ∈ cpf, c.isDigit = true)
    {limite : Nat} (hl : limite ≤ cpf.length) (h10 : limite ≤ 10) :
    calcularDigitoSoma cpf limite = some ((specSoma cpf limite : Nat) : Int) := by
  have h := (soma_loop cpf hs (limite + 1) (by omega) limite hl (by omega)).1
  unfold calcularDigitoSoma specSoma
  simp only [Nat.cast_add, Nat.cast_one] at h
  exact h

theorem specSoma_le {cpf : List Char} (hs : ∀ c ∈ cpf, c.isDigit = true)
    {limite : Nat} (hl : limite ≤ cpf.length) (h10 : limite ≤ 10) :
    specSoma cpf limite ≤ 990 := by
  have h := (soma_loop cpf hs (limite + 1) (by omega) limite hl (by omega)).2
  unfold specSoma
  omega

theorem tmod_nat (n : Nat) : Int.tmod ((n : Int)) 11 = ((n % 11 : Nat) : Int) := by
  rw [Int.ofNat_tmod]
  rfl

theorem calcularDigitoResto_nat (n : Nat) (hn : n * 10 < 2 ^ 53) :
    calcularDigitoResto (some (n : Int)) = some ((specF n : Nat) : Int) := by
  have hlt : (n * 10) % 11 < 11 := Nat.mod_lt _ (by decide)
  have hm : jsMul (some (n : Int)) (some 10) = some ((n * 10 : Nat) : Int) :=
    @jsMul_nat n 10 hn
  unfold calcularDigitoResto specF
  simp only [hm, jsMod, jsEq, tmod_nat]
  by_cases h10 : (n * 10) % 11 = 10
  · simp [h10]
  · simp [h10]
    omega

theorem calcularDigito_eq {cpf : List Char} (hs : ∀ c ∈ cpf, c.isDigit = true)
    {limite : Nat} (hl : limite ≤ cpf.length) (h10 : limite ≤ 10) :
    calcularDigito cpf limite = some ((specF (specSoma cpf limite) : Nat) : Int) := by
  have hb := specSoma_le hs hl h10
  unfold calcularDigito
  rw [calcularDigitoSoma_eq hs hl h10, calcularDigitoResto_nat _ (by omega)]

theorem specC1_eq (d : List Char) : specC1 d = specF (specSoma d 9) := rfl

theorem specC2_eq (d : List Char) : specC2 d = specF (specSoma d 10) := rfl

theorem substring_one {s : List Char} {i : Nat} (h : i < s.length) :
    substring s i (i + 1) = [s[i]] := by
  have h1 : min i s.length = i := by omega
  have h2 : min (i + 1) s.length = i + 1 := by omega
  have h3 : max i (i + 1) = i + 1 := by omega
  have h4 : min i (i + 1) = i := by omega
  have h5 := charAt_lt h
  unfold charAt at h5
  simp only [substring, h1, h2, h3, h4, List.drop_take]
  simpa using h5

theorem parseInt_substring_one {s : List Char} (hs : ∀ c ∈ s, c.isDigit = true) {i : Nat}
    (h : i < s.length) :
    parseInt (substring s i (i + 1)) = some ((digito s i : Nat) : Int) := by
  rw [substring_one h, parseInt_digit (hs _ (List.getElem_mem h)), digito_lt h]

theorem jsStrictNe_nat (a b : Nat) :
    jsStrictNe (some (a : Int)) (some (b : Int)) = true ↔ a ≠ b := by
  simp [jsStrictNe]

/-! ## Lemmas on `validarCpf` -/

theorem testRepeated_iff (cpf : List Char) :
    testRepeated cpf = true ↔
      cpf.length = 11 ∧ (∀ c ∈ cpf, c.isDigit = true) ∧ AllIdentical cpf := by
  cases cpf with
  | nil => simp [testRepeated]
  | cons c rest =>
    simp only [testRepeated, AllIdentical, Bool.and_eq_true, beq_iff_eq, List.all_eq_true,
      List.length_cons, List.mem_cons]
    constructor
    · rintro ⟨⟨hc, hl⟩, hall⟩
      refine ⟨by omega, ?_, ?_⟩
      · rintro x (rfl | hx)
        · exact hc
        · rw [hall x hx]; exact hc
      · rintro x (rfl | hx) y (rfl | hy)
        · rfl
        · exact (hall y hy).symm
        · exact hall x hx
        · rw [hall x hx, hall y hy]
    · rintro ⟨hl, hd, hall⟩
      exact ⟨⟨hd c (Or.inl rfl), by omega⟩, fun x hx => hall x (Or.inr hx) c (Or.inl rfl)⟩

theorem validarCpf_cases (input : HTMLInputElement) :
    validarCpf input =
      if (replaceNonDigits input.value).length ≠ 11 then wrongLength input
      else if AllIdentical (replaceNonDigits input.value) then repeatedDigits input
      else if specC1 (replaceNonDigits input.value) ≠ digito (replaceNonDigits input.value) 9
        then firstMismatch input
      else if specC2 (replaceNonDigits input.value) ≠ digito (replaceNonDigits input.value) 10
        then secondMismatch input
      else valid input := by
  have hs : ∀ c ∈ replaceNonDigits input.value, c.isDigit = true :=
    fun c hc => mem_replaceNonDigits hc
  unfold validarCpf
  simp only []
  by_cases hl : (replaceNonDigits input.value).length ≠ 11
  · rw [if_pos hl, if_pos hl]; rfl
  · rw [if_neg hl, if_neg hl]
    have hl11 : (replaceNonDigits input.value).length = 11 := not_not.mp hl
    have hrep : testRepeated (replaceNonDigits input.value) = true ↔
        AllIdentical (replaceNonDigits input.value) := by
      rw [testRepeated_iff]
      exact ⟨fun h => h.2.2, fun h => ⟨hl11, hs, h⟩⟩
    by_cases hr : AllIdentical (replaceNonDigits input.value)
    · rw [if_pos (hrep.mpr hr), if_pos hr]; rfl
    · rw [if_neg (fun h => hr (hrep.mp h)), if_neg hr,
        calcularDigito_eq hs (show 9 ≤ _ by omega) (by omega),
        calcularDigito_eq hs (show 10 ≤ _ by omega) (by omega),
        parseInt_substring_one hs (show 9 < _ by omega),
        parseInt_substring_one hs (show 10 < _ by omega),
        ← specC1_eq, ← specC2_eq]
      by_cases h1 : specC1 (replaceNonDigits input.value)
          ≠ digito (replaceNonDigits input.value) 9
      · rw [if_pos ((jsStrictNe_nat _ _).mpr h1), if_pos h1]; rfl
      · rw [if_neg (fun h => h1 ((jsStrictNe_nat _ _).mp h)), if_neg h1]
        by_cases h2 : specC2 (replaceNonDigits input.value)
            ≠ digito (replaceNonDigits input.value) 10
        · rw [if_pos ((jsStrictNe_nat _ _).mpr h2), if_pos h2]; rfl
        · rw [if_neg (fun h => h2 ((jsStrictNe_nat _ _).mp h)), if_neg h2]; rfl

theorem exibirFeedbackCpf_inj {input : HTMLInputElement} {m m' : String} {v v' : Bool}
    (h : exibirFeedbackCpf input m v = exibirFeedbackCpf input m' v') : m = m' ∧ v = v' := by
  have ht := congrArg HTMLInputElement.title h
  have hb := congrArg HTMLInputElement.borderColor h
  cases v <;> cases v' <;> simp [exibirFeedbackCpf, focus] at ht hb ⊢ <;> exact ht

theorem title_exibirFeedbackCpf (input : HTMLInputElement) (m : String) (v : Bool) :
    (exibirFeedbackCpf input m v).title = m := by
  cases v <;> rfl

theorem outcomes_distinct (input : HTMLInputElement) :
    wrongLength input ≠ repeatedDigits input ∧ wrongLength input ≠ firstMismatch input ∧
    wrongLength input ≠ secondMismatch input ∧ wrongLength input ≠ valid input ∧
    repeatedDigits input ≠ firstMismatch input ∧ repeatedDigits input ≠ secondMismatch input ∧
    repeatedDigits input ≠ valid input ∧ firstMismatch input ≠ secondMismatch input ∧
    firstMismatch input ≠ valid input ∧ secondMismatch input ≠ valid input := by
  refine ⟨?_, ?_, ?_, ?_, ?_, ?_, ?_, ?_, ?_, ?_⟩ <;>
  · intro h
    have ht := congrArg HTMLInputElement.title h
    simp only [wrongLength, repeatedDigits, firstMismatch, secondMismatch, valid,
      title_exibirFeedbackCpf] at ht
    exact absurd ht (by decide)

theorem validarCpf_mem (input : HTMLInputElement) :
    validarCpf input = wrongLength input ∨ validarCpf input = repeatedDigits input ∨
    validarCpf input = firstMismatch input ∨ validarCpf input = secondMismatch input ∨
    validarCpf input = valid input := by
  rw [validarCpf_cases]
  split_ifs <;> simp

theorem replaceNonDigits_mk {l : List Char} (h : ∀ c ∈ l, c.isDigit = true) :
    replaceNonDigits (String.mk l) = l := by
  unfold replaceNonDigits
  exact List.filter_eq_self.mpr h

theorem allIdentical_replicate (n : Nat) (c : Char) : AllIdentical (List.replicate n c) := by
  intro x hx y hy
  rw [List.eq_of_mem_replicate hx, List.eq_of_mem_replicate hy]

theorem validarCpf_same_digits (x y : HTMLInputElement)
    (hxy : replaceNonDigits x.value = replaceNonDigits y.value) :
    ∃ (m : String) (v : Bool),
      validarCpf x = exibirFeedbackCpf x m v ∧ validarCpf y = exibirFeedbackCpf y m v := by
  rw [validarCpf_cases x, validarCpf_cases y, hxy]
  split_ifs
  · exact ⟨_, _, rfl, rfl⟩
  · exact ⟨_, _, rfl, rfl⟩
  · exact ⟨_, _, rfl, rfl⟩
  · exact ⟨_, _, rfl, rfl⟩
  · exact ⟨_, _, rfl, rfl⟩

/-! ## The claims -/

/-- C1: `validarCpf` leaves the element in the valid state (message `CPF válido!`,
`valido = true`) exactly when the ASCII digits of the value are eleven, not all
identical, and the digits at positions 9 and 10 equal the two check digits the
specification computes; and `111.444.777-35` is valid. -/
theorem validarCpf_valid_iff :
    (∀ input : HTMLInputElement,
      validarCpf input = exibirFeedbackCpf input "CPF válido!" true ↔
        (replaceNonDigits input.value).length = 11 ∧
        ¬ AllIdentical (replaceNonDigits input.value) ∧
        digito (replaceNonDigits input.value) 9 = specC1 (replaceNonDigits input.value) ∧
        digito (replaceNonDigits input.value) 10 = specC2 (replaceNonDigits input.value)) ∧
    validarCpf (campo "111.444.777-35")
      = exibirFeedbackCpf (campo "111.444.777-35") "CPF válido!" true := by
  refine ⟨fun input => ?_, by decide⟩
  obtain ⟨-, -, -, h4, -, -, h7, -, h9, h10⟩ := outcomes_distinct input
  change validarCpf input = valid input ↔ _
  rw [validarCpf_cases]
  split_ifs with a b c d
  · exact ⟨fun h => absurd h h4, fun h => absurd h.1 a⟩
  · exact ⟨fun h => absurd h h7, fun h => absurd b h.2.1⟩
  · exact ⟨fun h => absurd h h9, fun h => absurd h.2.2.1.symm c⟩
  · exact ⟨fun h => absurd h h10, fun h => absurd h.2.2.2.symm d⟩
  · exact ⟨fun _ => ⟨not_not.mp a, b, (not_not.mp c).symm, (not_not.mp d).symm⟩, fun _ => rfl⟩

/-- C2: `validarCpf` takes the wrong-length exit (invalid, message
`O CPF deve conter 11 dígitos.`) exactly when the value does not hold eleven
ASCII digits, and then the element is in no other state that
`exibirFeedbackCpf` could produce from it. -/
theorem validarCpf_wrongLength_iff (input : HTMLInputElement) :
    (validarCpf input = exibirFeedbackCpf input "O CPF deve conter 11 dígitos." false ↔
      (replaceNonDigits input.value).length ≠ 11) ∧
    ((replaceNonDigits input.value).length ≠ 11 →
      ∀ (m : String) (v : Bool), validarCpf input = exibirFeedbackCpf input m v →
        m = "O CPF deve conter 11 dígitos." ∧ v = false) := by
  obtain ⟨h1, h2, h3, h4, -⟩ := outcomes_distinct input
  have key : validarCpf input = wrongLength input ↔
      (replaceNonDigits input.value).length ≠ 11 := by
    rw [validarCpf_cases]
    split_ifs with a b c d
    · exact ⟨fun _ => a, fun _ => rfl⟩
    · exact ⟨fun h => absurd h.symm h1, fun h => absurd h a⟩
    · exact ⟨fun h => absurd h.symm h2, fun h => absurd h a⟩
    · exact ⟨fun h => absurd h.symm h3, fun h => absurd h a⟩
    · exact ⟨fun h => absurd h.symm h4, fun h => absurd h a⟩
  refine ⟨key, fun hl m v hmv => ?_⟩
  have hw : validarCpf input = wrongLength input := key.mpr hl
  rw [hw] at hmv
  obtain ⟨e1, e2⟩ := exibirFeedbackCpf_inj hmv
  exact ⟨e1.symm, e2.symm⟩

/-- C2, at the empty string, at a string of punctuation only and at a string of
twelve digits. -/
theorem validarCpf_wrongLength_iff_witness :
    validarCpf (campo "") = exibirFeedbackCpf (campo "") "O CPF deve conter 11 dígitos." false ∧
    validarCpf (campo "..-") = exibirFeedbackCpf (campo "..-") "O CPF deve conter 11 dígitos." false ∧
    validarCpf (campo "111444777350")
      = exibirFeedbackCpf (campo "111444777350") "O CPF deve conter 11 dígitos." false ∧
    (∀ (m : String) (v : Bool),
      validarCpf (campo "") = exibirFeedbackCpf (campo "") m v →
        m = "O CPF deve conter 11 dígitos." ∧ v = false) :=
  ⟨(validarCpf_wrongLength_iff (campo "")).1.mpr (by decide),
   (validarCpf_wrongLength_iff (campo "..-")).1.mpr (by decide),
   (validarCpf_wrongLength_iff (campo "111444777350")).1.mpr (by decide),
   (validarCpf_wrongLength_iff (campo "")).2 (by decide)⟩

/-- C3: for a digit `c`, `validarCpf` on the value made of `c` eleven times takes
the repeated-digits exit (invalid, message `CPF com números repetidos é inválido.`);
and on a value with eleven digits it takes that exit exactly when the eleven
digits are all identical. -/
theorem validarCpf_repeated (input : HTMLInputElement) (c : Char) (hc : c.isDigit = true) :
    validarCpf { input with value := String.mk (List.replicate 11 c) }
      = exibirFeedbackCpf { input with value := String.mk (List.replicate 11 c) }
          "CPF com números repetidos é inválido." false ∧
    (validarCpf input = exibirFeedbackCpf input "CPF com números repetidos é inválido." false
      ↔ (replaceNonDigits input.value).length = 11 ∧
        AllIdentical (replaceNonDigits input.value)) := by
  constructor
  · have hd : ∀ x ∈ List.replicate 11 c, x.isDigit = true := by
      intro x hx
      rw [List.eq_of_mem_replicate hx]
      exact hc
    change validarCpf _ = repeatedDigits _
    rw [validarCpf_cases]
    simp only [replaceNonDigits_mk hd]
    rw [if_neg (by simp), if_pos (allIdentical_replicate 11 c)]
  · obtain ⟨h1, -, -, -, h5, h6, h7, -⟩ := outcomes_distinct input
    change validarCpf input = repeatedDigits input ↔ _
    rw [validarCpf_cases]
    split_ifs with a b c d
    · exact ⟨fun h => absurd h h1, fun h => absurd h.1 a⟩
    · exact ⟨fun _ => ⟨not_not.mp a, b⟩, fun _ => rfl⟩
    · exact ⟨fun h => absurd h.symm h5, fun h => absurd h.2 b⟩
    · exact ⟨fun h => absurd h.symm h6, fun h => absurd h.2 b⟩
    · exact ⟨fun h => absurd h.symm h7, fun h => absurd h.2 b⟩

/-- C3, at the digit `7` and at a field holding `111.444.777-35`. -/
theorem validarCpf_repeated_witness :
    ('7').isDigit = true ∧
    validarCpf { campo "111.444.777-35" with value := String.mk (List.replicate 11 '7') }
      = exibirFeedbackCpf
          { campo "111.444.777-35" with value := String.mk (List.replicate 11 '7') }
          "CPF com números repetidos é inválido." false ∧
    (validarCpf (campo "111.444.777-35")
        = exibirFeedbackCpf (campo "111.444.777-35")
            "CPF com números repetidos é inválido." false
      ↔ (replaceNonDigits (campo "111.444.777-35").value).length = 11 ∧
        AllIdentical (replaceNonDigits (campo "111.444.777-35").value)) :=
  ⟨by decide, validarCpf_repeated (campo "111.444.777-35") '7' (by decide)⟩

/-- C4: on a value whose eleven digits are not all identical, `validarCpf` takes
the first-check-digit exit exactly when the computed first check digit differs
from the digit at position 9, and the second-check-digit exit exactly when the
first one matches and the computed second check digit differs from the digit at
position 10. -/
theorem validarCpf_mismatch (input : HTMLInputElement)
    (hl : (replaceNonDigits input.value).length = 11)
    (hr : ¬ AllIdentical (replaceNonDigits input.value)) :
    (validarCpf input
        = exibirFeedbackCpf input "O CPF digitado é inválido (1º dígito incorreto)." false ↔
      specC1 (replaceNonDigits input.value) ≠ digito (replaceNonDigits input.value) 9) ∧
    (validarCpf input
        = exibirFeedbackCpf input "O CPF digitado é inválido (2º dígito incorreto)." false ↔
      specC1 (replaceNonDigits input.value) = digito (replaceNonDigits input.value) 9 ∧
      specC2 (replaceNonDigits input.value) ≠ digito (replaceNonDigits input.value) 10) := by
  obtain ⟨-, -, -, -, -, -, -, h8, h9, h10⟩ := outcomes_distinct input
  change (validarCpf input = firstMismatch input ↔ _) ∧
    (validarCpf input = secondMismatch input ↔ _)
  rw [validarCpf_cases, if_neg (not_not.mpr hl), if_neg hr]
  split_ifs with c d
  · exact ⟨⟨fun _ => c, fun _ => rfl⟩, ⟨fun h => absurd h h8, fun h => absurd h.1 c⟩⟩
  · exact ⟨⟨fun h => absurd h.symm h8, fun h => absurd h c⟩,
      ⟨fun _ => ⟨not_not.mp c, d⟩, fun _ => rfl⟩⟩
  · exact ⟨⟨fun h => absurd h.symm h9, fun h => absurd h c⟩,
      ⟨fun h => absurd h.symm h10, fun h => absurd h.2 d⟩⟩

/-- C4, at `111.444.778-35` (first check digit wrong) and `111.444.777-36`
(second check digit wrong). -/
theorem validarCpf_mismatch_witness :
    validarCpf (campo "111.444.778-35")
      = exibirFeedbackCpf (campo "111.444.778-35")
          "O CPF digitado é inválido (1º dígito incorreto)." false ∧
    validarCpf (campo "111.444.777-36")
      = exibirFeedbackCpf (campo "111.444.777-36")
          "O CPF digitado é inválido (2º dígito incorreto)." false :=
  ⟨(validarCpf_mismatch (campo "111.444.778-35") (by decide) (by decide)).1.mpr (by decide),
   (validarCpf_mismatch (campo "111.444.777-36") (by decide) (by decide)).2.mpr (by decide)⟩

/-- C5: two fields whose values have the same ASCII digits in the same order get
the same message and the same validity flag from `validarCpf`; so does a field
and the same field with every non-digit removed from its value; and nothing but
`value` tells the two resulting elements apart. The three spellings
`111.444.777-35`, `11144477735` and `1-1 1.4 4 4. 7 7 7 - 3 5` give one result. -/
theorem validarCpf_formatting (a b : HTMLInputElement)
    (h : replaceNonDigits a.value = replaceNonDigits b.value) :
    (∃ (m : String) (v : Bool),
      validarCpf a = exibirFeedbackCpf a m v ∧ validarCpf b = exibirFeedbackCpf b m v) ∧
    (∃ (m : String) (v : Bool),
      validarCpf a = exibirFeedbackCpf a m v ∧
      validarCpf { a with value := String.mk (replaceNonDigits a.value) }
        = exibirFeedbackCpf { a with value := String.mk (replaceNonDigits a.value) } m v) ∧
    validarCpf { a with value := b.value } = { validarCpf a with value := b.value } := by
  refine ⟨validarCpf_same_digits a b h, validarCpf_same_digits a _ ?_, ?_⟩
  · exact (replaceNonDigits_mk (fun c hc => mem_replaceNonDigits hc)).symm
  · obtain ⟨m, v, h1, h2⟩ := validarCpf_same_digits a { a with value := b.value } h
    rw [h2, h1]
    cases v <;> rfl

/-- C5, at `111.444.777-35` against `11144477735` and against
`1-1 1.4 4 4. 7 7 7 - 3 5`: all three are reported valid. -/
theorem validarCpf_formatting_witness :
    (validarCpf (campo "111.444.777-35")
        = exibirFeedbackCpf (campo "111.444.777-35") "CPF válido!" true ∧
      validarCpf (campo "11144477735")
        = exibirFeedbackCpf (campo "11144477735") "CPF válido!" true ∧
      validarCpf (campo "1-1 1.4 4 4. 7 7 7 - 3 5")
        = exibirFeedbackCpf (campo "1-1 1.4 4 4. 7 7 7 - 3 5") "CPF válido!" true) ∧
    (∃ (m : String) (v : Bool),
      validarCpf (campo "111.444.777-35") = exibirFeedbackCpf (campo "111.444.777-35") m v ∧
      validarCpf (campo "11144477735") = exibirFeedbackCpf (campo "11144477735") m v) ∧
    (∃ (m : String) (v : Bool),
      validarCpf (campo "111.444.777-35") = exibirFeedbackCpf (campo "111.444.777-35") m v ∧
      validarCpf (campo "1-1 1.4 4 4. 7 7 7 - 3 5")
        = exibirFeedbackCpf (campo "1-1 1.4 4 4. 7 7 7 - 3 5") m v) :=
  ⟨⟨by decide, by decide, by decide⟩,
   (validarCpf_formatting (campo "111.444.777-35") (campo "11144477735") (by decide)).1,
   (validarCpf_formatting (campo "111.444.777-35") (campo "1-1 1.4 4 4. 7 7 7 - 3 5")
      (by decide)).1⟩

/-- C6: `validarCpf` always ends in one of its five outcomes, which are five
different states of the element; and once the value holds eleven digits, every
`cpf.charAt(i)` with `i < 10`, `cpf.substring(9, 10)` and `cpf.substring(10, 11)`
is a single ASCII digit whose `parseInt` is its value between 0 and 9, and the
sums and check digits computed by `calcularDigito(9)` and `calcularDigito(10)`
are numbers, not `NaN`. -/
theorem validarCpf_total (input : HTMLInputElement) :
    validarCpf input ∈ [wrongLength input, repeatedDigits input, firstMismatch input,
      secondMismatch input, valid input] ∧
    [wrongLength input, repeatedDigits input, firstMismatch input,
      secondMismatch input, valid input].Nodup ∧
    ((replaceNonDigits input.value).length = 11 →
      (∀ i, i < 10 → ∃ c : Char, c.isDigit = true ∧
        charAt (replaceNonDigits input.value) i = [c] ∧
        parseInt (charAt (replaceNonDigits input.value) i) = some ((c.toNat - 48 : Nat) : Int) ∧
        c.toNat - 48 ≤ 9) ∧
      (∃ c : Char, c.isDigit = true ∧ substring (replaceNonDigits input.value) 9 10 = [c] ∧
        parseInt (substring (replaceNonDigits input.value) 9 10)
          = some ((c.toNat - 48 : Nat) : Int)) ∧
      (∃ c : Char, c.isDigit = true ∧ substring (replaceNonDigits input.value) 10 11 = [c] ∧
        parseInt (substring (replaceNonDigits input.value) 10 11)
          = some ((c.toNat - 48 : Nat) : Int)) ∧
      (∃ n : Nat, calcularDigitoSoma (replaceNonDigits input.value) 9 = some (n : Int)) ∧
      (∃ n : Nat, calcularDigitoSoma (replaceNonDigits input.value) 10 = some (n : Int)) ∧
      (∃ n : Nat, n ≤ 9 ∧ calcularDigito (replaceNonDigits input.value) 9 = some (n : Int)) ∧
      (∃ n : Nat, n ≤ 9 ∧ calcularDigito (replaceNonDigits input.value) 10 = some (n : Int))) := by
  have hs : ∀ c ∈ replaceNonDigits input.value, c.isDigit = true :=
    fun c hc => mem_replaceNonDigits hc
  have hF : ∀ x, specF x ≤ 9 := by
    intro x
    unfold specF
    split_ifs <;> omega
  refine ⟨?_, ?_, ?_⟩
  · simp only [List.mem_cons, List.mem_singleton, List.not_mem_nil, or_false]
    exact validarCpf_mem input
  · obtain ⟨h1, h2, h3, h4, h5, h6, h7, h8, h9, h10⟩ := outcomes_distinct input
    simp only [List.nodup_cons, List.mem_cons, List.mem_singleton, List.not_mem_nil,
      not_or, List.nodup_nil, not_false_eq_true, and_true]
    exact ⟨⟨h1, h2, h3, h4⟩, ⟨h5, h6, h7⟩, ⟨h8, h9⟩, h10⟩
  · intro hl
    refine ⟨fun i hi => ?_, ?_, ?_, ?_, ?_, ?_, ?_⟩
    · have hlt : i < (replaceNonDigits input.value).length := by omega
      have hd := hs _ (List.getElem_mem hlt)
      refine ⟨_, hd, charAt_lt hlt, ?_, ?_⟩
      · rw [charAt_lt hlt, parseInt_digit hd]
      · have := isDigit_toNat hd
        omega
    · have hlt : 9 < (replaceNonDigits input.value).length := by omega
      have hd := hs _ (List.getElem_mem hlt)
      exact ⟨_, hd, substring_one hlt, by rw [substring_one hlt, parseInt_digit hd]⟩
    · have hlt : 10 < (replaceNonDigits input.value).length := by omega
      have hd := hs _ (List.getElem_mem hlt)
      exact ⟨_, hd, substring_one hlt, by rw [substring_one hlt, parseInt_digit hd]⟩
    · exact ⟨_, calcularDigitoSoma_eq hs (by omega) (by omega)⟩
    · exact ⟨_, calcularDigitoSoma_eq hs (by omega) (by omega)⟩
    · exact ⟨_, hF _, calcularDigito_eq hs (by omega) (by omega)⟩
    · exact ⟨_, hF _, calcularDigito_eq hs (by omega) (by omega)⟩

/-- C6, at a field holding `111.444.777-35`: the value has eleven digits, and
both check digits are computed as numbers from 0 to 9. -/
theorem validarCpf_total_witness :
    (replaceNonDigits (campo "111.444.777-35").value).length = 11 ∧
    (∃ n : Nat, n ≤ 9 ∧
      calcularDigito (replaceNonDigits (campo "111.444.777-35").value) 9 = some (n : Int)) ∧
    (∃ n : Nat, n ≤ 9 ∧
      calcularDigito (replaceNonDigits (campo "111.444.777-35").value) 10 = some (n : Int)) :=
  ⟨by decide, ((validarCpf_total (campo "111.444.777-35")).2.2 (by decide)).2.2.2.2.2⟩

/-- C7 as stated fails: on an untouched empty field `validarCpf` does not leave
the custom-validity message, the title, the border colour and the focus as they
were (all four change). -/
theorem validarCpf_frame_counterexample :
    ¬ ((validarCpf (campo "")).customValidity = (campo "").customValidity ∧
       (validarCpf (campo "")).title = (campo "").title ∧
       (validarCpf (campo "")).borderColor = (campo "").borderColor ∧
       (validarCpf (campo "")).focused = (campo "").focused) := by
  decide

/-- C7 amended: `validarCpf` leaves the element in the state that the presenter
`exibirFeedbackCpf` produces from it for the verdict's message and validity
flag. The `value` is left as it was; the title becomes the message; the
custom-validity message becomes empty when valid and the message otherwise; the
border becomes green when valid and red otherwise; when valid the focus is left
alone, and when invalid `input.focus()` is called, so that a field able to take
the focus has it afterwards and any other field keeps the focus state it had. -/
theorem validarCpf_effects (input : HTMLInputElement) :
    (validarCpf input).value = input.value ∧
    (validarCpf input).focusable = input.focusable ∧
    ∃ (m : String) (v : Bool),
      validarCpf input = exibirFeedbackCpf input m v ∧
      (validarCpf input).title = m ∧
      (validarCpf input).customValidity = (if v then "" else m) ∧
      (validarCpf input).borderColor = (if v then "green" else "red") ∧
      (validarCpf input).focused =
        (if v then input.focused else if input.focusable then true else input.focused) := by
  have hval : ∀ (m : String) (v : Bool),
      (exibirFeedbackCpf input m v).value = input.value ∧
      (exibirFeedbackCpf input m v).focusable = input.focusable := by
    intro m v
    cases v <;> exact ⟨rfl, rfl⟩
  have hrest : ∀ (m : String) (v : Bool),
      (exibirFeedbackCpf input m v).title = m ∧
      (exibirFeedbackCpf input m v).customValidity = (if v then "" else m) ∧
      (exibirFeedbackCpf input m v).borderColor = (if v then "green" else "red") ∧
      (exibirFeedbackCpf input m v).focused =
        (if v then input.focused else if input.focusable then true else input.focused) := by
    intro m v
    cases v <;> exact ⟨rfl, rfl, rfl, rfl⟩
  rcases validarCpf_mem input with h | h | h | h | h <;> rw [h] <;>
    exact ⟨(hval _ _).1, (hval _ _).2, _, _, rfl, hrest _ _⟩

/-- C8: for every digit `c`, the string of `c` eleven times passes the length
test and both check-digit comparisons of `validarCpf` (each computed check digit
is the number `c`, as is the digit it is compared with, and so are the check
digits of the specification's formula), and is caught by the repeated-digits
test. -/
theorem repeated_checkDigits_match (c : Char) (hc : c.isDigit = true) :
    (List.replicate 11 c).length = 11 ∧
    calcularDigito (List.replicate 11 c) 9 = some ((c.toNat - 48 : Nat) : Int) ∧
    parseInt (substring (List.replicate 11 c) 9 10) = some ((c.toNat - 48 : Nat) : Int) ∧
    jsStrictNe (calcularDigito (List.replicate 11 c) 9)
      (parseInt (substring (List.replicate 11 c) 9 10)) = false ∧
    calcularDigito (List.replicate 11 c) 10 = some ((c.toNat - 48 : Nat) : Int) ∧
    parseInt (substring (List.replicate 11 c) 10 11) = some ((c.toNat - 48 : Nat) : Int) ∧
    jsStrictNe (calcularDigito (List.replicate 11 c) 10)
      (parseInt (substring (List.replicate 11 c) 10 11)) = false ∧
    testRepeated (List.replicate 11 c) = true ∧
    specC1 (List.replicate 11 c) = c.toNat - 48 ∧
    specC2 (List.replicate 11 c) = c.toNat - 48 := by
  rcases isDigit_cases hc with rfl | rfl | rfl | rfl | rfl | rfl | rfl | rfl | rfl | rfl <;>
    decide

/-- C8, at the digit `9`. -/
theorem repeated_checkDigits_match_witness :
    ('9').isDigit = true ∧
    calcularDigito (List.replicate 11 '9') 9 = some 9 ∧
    calcularDigito (List.replicate 11 '9') 10 = some 9 :=
  ⟨by decide,
   (repeated_checkDigits_match '9' (by decide)).2.1,
   (repeated_checkDigits_match '9' (by decide)).2.2.2.2.1⟩

/-- C9 as stated fails: `soma * 10` is a double product, and at
`soma = 1801439850948199` it is rounded from `18014398509481990` to
`18014398509481992`, so the end of `calcularDigito` gives `2` where the
conventional rule gives `0`. -/
theorem calcularDigitoResto_counterexample :
    jsMul (some ((1801439850948199 : Nat) : Int)) (some 10) = some 18014398509481992 ∧
    calcularDigitoResto (some ((1801439850948199 : Nat) : Int)) = some 2 ∧
    specConventional 1801439850948199 = 0 ∧
    calcularDigitoResto (some ((1801439850948199 : Nat) : Int))
      ≠ some ((specConventional 1801439850948199 : Nat) : Int) := by
  decide

/-- C9 amended: for every non-negative integer `soma` with `soma * 10 < 2^53`
(every weighted sum `calcularDigito` computes is at most 585), the end of
`calcularDigito` gives the digit of the conventional rule (`r = soma % 11`, `0`
if `r < 2`, else `11 - r`) and the result lies in `0..9`; and for every
non-negative integer the comparison `resto == 11` is false. -/
theorem calcularDigitoResto_conventional (soma : Nat) (hs : soma * 10 < 2 ^ 53) :
    calcularDigitoResto (some (soma : Int)) = some ((specConventional soma : Nat) : Int) ∧
    specConventional soma ≤ 9 ∧
    ∀ t : Nat, jsEq (jsMod (jsMul (some (t : Int)) (some 10)) (some 11)) (some 11) = false := by
  refine ⟨?_, ?_, ?_⟩
  · rw [calcularDigitoResto_nat soma hs]
    congr 2
    have hr : soma % 11 < 11 := Nat.mod_lt _ (by decide)
    have hm : (soma * 10) % 11 = ((soma % 11) * 10) % 11 := Nat.mul_mod soma 10 11
    unfold specF specConventional
    rw [hm]
    generalize soma % 11 = r at hr
    interval_cases r <;> decide
  · unfold specConventional
    split_ifs <;> omega
  · intro t
    cases hq : jsMul (some (t : Int)) (some 10) with
    | none => rfl
    | some x =>
      have hlt : Int.tmod x 11 < 11 := Int.tmod_lt_of_pos x (by decide)
      have hne : ¬ (Int.tmod x 11 = 11) := by omega
      simp [jsMod, jsEq, hne]

/-- C9 amended, at `soma = 162`, the weighted sum of `111444777`: the digit is `3`. -/
theorem calcularDigitoResto_conventional_witness :
    162 * 10 < 2 ^ 53 ∧
    calcularDigitoResto (some ((162 : Nat) : Int)) = some ((specConventional 162 : Nat) : Int) ∧
    specConventional 162 = 3 :=
  ⟨by decide, (calcularDigitoResto_conventional 162 (by decide)).1, by decide⟩

theorem mascaraCpfTexto_spec (v : String) :
    (mascaraCpfTexto v).length ≤ 14 ∧
    (mascaraCpfTexto v).filter Char.isDigit = (replaceNonDigits v).take 11 ∧
    mascaraCpfTexto v = specMascara ((replaceNonDigits v).take 11) := by
  have hs : ∀ c ∈ replaceNonDigits v, c.isDigit = true := fun c hc => mem_replaceNonDigits hc
  unfold mascaraCpfTexto
  generalize replaceNonDigits v = d at hs
  have hdot : ('.').isDigit = false := by decide
  have hdash : ('-').isDigit = false := by decide
  rcases d with _ | ⟨a0, _ | ⟨a1, _ | ⟨a2, _ | ⟨a3, _ | ⟨a4, _ | ⟨a5, _ | ⟨a6, _ | ⟨a7, _ | ⟨a8, _ | ⟨a9, _ | ⟨a10, _ | ⟨a11, rest⟩⟩⟩⟩⟩⟩⟩⟩⟩⟩⟩⟩ <;>
    (try simp only [List.forall_mem_cons] at hs) <;>
    simp [substring, substringFrom, specMascara, hs, hdot, hdash]

/-- C10: the mask handler writes back at most 14 characters whose digits are
exactly the first eleven digits of the old value (all of them when there are at
most eleven), laid out with `.` after the 3rd and 6th digit and `-` after the
9th, each only when a further digit follows; and when the old value holds
exactly eleven digits the new one reads `NNN.NNN.NNN-NN` and `validarCpf` gives
the same message and validity flag on the masked field as on the original. -/
theorem mascaraCpf_spec (target : HTMLInputElement) :
    (mascaraCpf target).value.length ≤ 14 ∧
    replaceNonDigits (mascaraCpf target).value = (replaceNonDigits target.value).take 11 ∧
    ((replaceNonDigits target.value).length ≤ 11 →
      replaceNonDigits (mascaraCpf target).value = replaceNonDigits target.value) ∧
    (mascaraCpf target).value.data = specMascara ((replaceNonDigits target.value).take 11) ∧
    ((replaceNonDigits target.value).length = 11 →
      (mascaraCpf target).value.length = 14 ∧
      (mascaraCpf target).value.data =
        (replaceNonDigits target.value).take 3
          ++ '.' :: ((replaceNonDigits target.value).drop 3).take 3
          ++ '.' :: ((replaceNonDigits target.value).drop 6).take 3
          ++ '-' :: (replaceNonDigits target.value).drop 9 ∧
      ∃ (m : String) (v : Bool),
        validarCpf target = exibirFeedbackCpf target m v ∧
        validarCpf (mascaraCpf target) = exibirFeedbackCpf (mascaraCpf target) m v) := by
  obtain ⟨h1, h2, h3⟩ := mascaraCpfTexto_spec target.value
  have hdata : (mascaraCpf target).value.data = mascaraCpfTexto target.value := rfl
  have hlen : (mascaraCpf target).value.length = (mascaraCpfTexto target.value).length := rfl
  have hd : replaceNonDigits (mascaraCpf target).value
      = (replaceNonDigits target.value).take 11 := h2
  have hle : (replaceNonDigits target.value).length ≤ 11 →
      replaceNonDigits (mascaraCpf target).value = replaceNonDigits target.value := by
    intro hl
    rw [hd, List.take_of_length_le hl]
  refine ⟨hlen ▸ h1, hd, hle, hdata ▸ h3, fun hl => ?_⟩
  have htake : (replaceNonDigits target.value).take 11 = replaceNonDigits target.value :=
    List.take_of_length_le (by omega)
  refine ⟨?_, ?_, validarCpf_same_digits target (mascaraCpf target) (hle (by omega)).symm⟩
  · rw [hlen, h3, htake]
    simp [specMascara, hl]
  · rw [hdata, h3, htake]
    simp [specMascara, hl]

/-- C10, at a field holding the eleven digits `11144477735` followed by spaces
and letters: the handler writes `111.444.777-35`. -/
theorem mascaraCpf_spec_witness :
    (replaceNonDigits (campo "111 444 777 35 abc").value).length = 11 ∧
    (mascaraCpf (campo "111 444 777 35 abc")).value.length = 14 ∧
    (mascaraCpf (campo "111 444 777 35 abc")).value.data = "111.444.777-35".data ∧
    ∃ (m : String) (v : Bool),
      validarCpf (campo "111 444 777 35 abc")
        = exibirFeedbackCpf (campo "111 444 777 35 abc") m v ∧
      validarCpf (mascaraCpf (campo "111 444 777 35 abc"))
        = exibirFeedbackCpf (mascaraCpf (campo "111 444 777 35 abc")) m v :=
  ⟨by decide, ((mascaraCpf_spec (campo "111 444 777 35 abc")).2.2.2.2 (by decide)).1, by decide,
   ((mascaraCpf_spec (campo "111 444 777 35 abc")).2.2.2.2 (by decide)).2.2⟩

end CpfForm
